import Mathlib

/-!
# Verification of shock.js (OpenShock client library)

Shallow embedding of the request/response mapping and error-normalization
layer of the shock.js client library (`src/lib/index.js`, the bundled build
it ships, `src/index.js`, and `lib/DeviceHub.js`).

JSON values decoded by the platform `JSON.parse`, together with the
`undefined` value produced by property access on a missing field, are
modelled by `JsValue`.  Network transports are modelled as values of
`HttpResult` (a status/body pair or a lower-level network failure); the
promise outcome of each operation is an `Outcome`: a synchronous `thrown`
error (raised before any network request), a `resolved` value, or a
`rejected` error message.
-/

/-- A decoded JavaScript value: the JSON data types plus `undefined`
(the result of accessing a missing property).  A number is embedded as the
exact rational its literal denotes; `JSON.parse` instead produces the
nearest IEEE-754 double, a rounding (with its underflow and precision
limits) this embedding does not model — no claim involves numeric
response values. -/
inductive JsValue where
  | null : JsValue
  | undefined : JsValue
  | bool : Bool → JsValue
  | num : ℚ → JsValue
  | str : String → JsValue
  | arr : List JsValue → JsValue
  | obj : List (String × JsValue) → JsValue

/-- JavaScript truthiness of a value.  `null`, `undefined`, `false`, `0` and
`""` are falsy; every array and object (empty or not) is truthy.  (`NaN`,
also falsy in JS, does not arise in this model: JSON literals denote exact
rationals here.) -/
def truthy : JsValue → Bool
  | .null => false
  | .undefined => false
  | .bool b => b
  | .num n => n != 0
  | .str s => s != ""
  | .arr _ => true
  | .obj _ => true

/-- Property access `v.k` on a non-nullish receiver.  On an object the
last binding of the key wins (as with duplicate keys under `JSON.parse`);
a missing key yields `undefined`; on the remaining non-nullish receivers
(booleans, numbers, strings, arrays) JS property access yields `undefined`
as well.  A `null` or `undefined` receiver instead throws a `TypeError` in
JS; the operations model that with `nullishErr` at the call sites that can
meet a nullish receiver (the `find`/`map` callbacks), and use `getField`
only behind a truthiness guard or after that check. -/
def getField (v : JsValue) (k : String) : JsValue :=
  match v with
  | .obj fs =>
    match fs.reverse.find? (fun p => p.1 == k) with
    | some p => p.2
    | none => .undefined
  | _ => .undefined

/-- `Array.isArray`. -/
def JsValue.isArr : JsValue → Bool
  | .arr _ => true
  | _ => false

/-- Object test (used only in theorem hypotheses to restrict responses to
well-formed groupings). -/
def JsValue.isObj : JsValue → Bool
  | .obj _ => true
  | _ => false

/-- JavaScript strict equality `===` restricted to the comparisons the
source performs.  Primitives compare by value; two distinct types are never
equal; arrays and objects compare by reference, and the two operands of the
source's only `===` always come from distinct allocations, so the object
cases are `false`. -/
def jsStrictEq : JsValue → JsValue → Bool
  | .null, .null => true
  | .undefined, .undefined => true
  | .bool a, .bool b => a == b
  | .num a, .num b => a == b
  | .str a, .str b => a == b
  | _, _ => false

/-- The `TypeError` raised by JS property access `v.k` when the receiver
is `null` or `undefined` (Node message text), and `none` for every other
receiver. -/
def nullishErr : JsValue → String → Option String
  | .null, k => some ("Cannot read properties of null (reading \x27" ++ k ++ "\x27)")
  | .undefined, k =>
    some ("Cannot read properties of undefined (reading \x27" ++ k ++ "\x27)")
  | _, _ => none

/-- Is the first character list an initial segment of the second? -/
def hasPref : List Char → List Char → Bool
  | [], _ => true
  | _ :: _, [] => false
  | a :: s, b :: t => a == b && hasPref s t

/-- Does the first character list occur contiguously inside the second? -/
def hasSub (sub : List Char) : List Char → Bool
  | [] => sub.isEmpty
  | c :: t => hasPref sub (c :: t) || hasSub sub t

/-- `containsStr s sub`: `sub` occurs as a substring of `s`. -/
def containsStr (s sub : String) : Bool :=
  hasSub sub.data s.data

/-- `beginsWith s p`: `p` is an initial segment of `s`. -/
def beginsWith (s p : String) : Bool :=
  hasPref p.data s.data

/-- The client: an API key and a base URL, immutable after construction. -/
structure Client where
  apiKey : String
  baseUrl : String
deriving DecidableEq

/-- `lib/DeviceHub.js`: a hub value object with a back-reference to the
client that produced it. -/
structure DeviceHub where
  shockJs : Client
  id : JsValue
  name : JsValue
  createdOn : JsValue

/-- A promise rejection value.  Plain `Error` rejections carry only a
message; the write primitive's non-success rejection additionally carries
the raw response body. -/
structure JsRejection where
  message : String
  body : Option String

/-- The outcome of one HTTP round trip as seen by the request primitives:
either a response (status code and raw body text) or a lower-level network
failure. -/
inductive HttpResult where
  | response : Nat → String → HttpResult
  | netError : String → HttpResult

/-- The observable outcome of calling a library operation: a synchronous
`thrown` error (raised before the operation returns a promise, hence before
any network request), a promise `resolved` with a value, or a promise
`rejected` with an error message. -/
inductive Outcome (α : Type) where
  | thrown : String → Outcome α
  | resolved : α → Outcome α
  | rejected : String → Outcome α

/-! ## A model of the platform `JSON.parse`

A recursive-descent parser for the JSON grammar, used by the request
primitives to decode response bodies and by command dispatch to
best-effort-parse a failed response body.  The set of accepted strings is
that of `JSON.parse`: full number grammar (leading zeros rejected,
fraction and exponent accepted), unescaped control characters rejected in
strings, surrogate pairs in `\u` escapes combined.  Value-level limits,
affecting no claim: a number denotes the exact rational of its literal
rather than the rounded IEEE-754 double, and a lone surrogate escape —
not a Unicode scalar value, hence not a Lean `Char` — decodes to
`U+FFFD`. -/

/-- Skip JSON whitespace. -/
def skipWs : List Char → List Char
  | [] => []
  | c :: t => if c == ' ' || c == '\n' || c == '\t' || c == '\r' then skipWs t else c :: t

/-- Value of a hex digit. -/
def hexVal (c : Char) : Option Nat :=
  if '0' ≤ c && c ≤ '9' then some (c.toNat - 48)
  else if 'a' ≤ c && c ≤ 'f' then some (c.toNat - 87)
  else if 'A' ≤ c && c ≤ 'F' then some (c.toNat - 55)
  else none

/-- Parse the body of a JSON string after its opening quote; returns the
decoded characters and the input past the closing quote.  Unescaped
control characters (below `U+0020`) are rejected, as `JSON.parse` does;
a `\u` escape carrying a high surrogate followed by a low-surrogate
escape decodes to the combined scalar value, and a lone surrogate escape
decodes to `U+FFFD` (see the module note). -/
def parseStrAux : List Char → Option (List Char × List Char)
  | [] => none
  | '"' :: rest => some ([], rest)
  | '\\' :: 'u' :: a :: b :: c :: d :: rest =>
    match hexVal a, hexVal b, hexVal c, hexVal d with
    | some x, some y, some z, some w =>
      let code := ((x * 16 + y) * 16 + z) * 16 + w
      let tailRes := parseStrAux rest
      let lone : Option (List Char × List Char) :=
        match tailRes with
        | some (s, r) => some (Char.ofNat 0xFFFD :: s, r)
        | none => none
      if 0xD800 ≤ code ∧ code ≤ 0xDBFF then
        match rest with
        | '\\' :: 'u' :: a2 :: b2 :: c2 :: d2 :: rest2 =>
          match hexVal a2, hexVal b2, hexVal c2, hexVal d2 with
          | some x2, some y2, some z2, some w2 =>
            let code2 := ((x2 * 16 + y2) * 16 + z2) * 16 + w2
            if 0xDC00 ≤ code2 ∧ code2 ≤ 0xDFFF then
              match parseStrAux rest2 with
              | some (s, r) =>
                some
                  (Char.ofNat (0x10000 + (code - 0xD800) * 0x400 + (code2 - 0xDC00)) :: s, r)
              | none => none
            else lone
          | _, _, _, _ => lone
        | _ => lone
      else if 0xDC00 ≤ code ∧ code ≤ 0xDFFF then lone
      else
        match tailRes with
        | some (s, r) => some (Char.ofNat code :: s, r)
        | none => none
    | _, _, _, _ => none
  | '\\' :: e :: rest =>
    match
      (match e with
       | '"' => some '"'
       | '\\' => some '\\'
       | '/' => some '/'
       | 'b' => some (Char.ofNat 8)
       | 'f' => some (Char.ofNat 12)
       | 'n' => some '\n'
       | 'r' => some '\r'
       | 't' => some '\t'
       | _ => none) with
    | some ch =>
      match parseStrAux rest with
      | some (s, r) => some (ch :: s, r)
      | none => none
    | none => none
  | c :: rest =>
    if c.toNat < 0x20 then none
    else
      match parseStrAux rest with
      | some (s, r) => some (c :: s, r)
      | none => none

/-- Read a run of decimal digits, accumulating their value and count. -/
def readDigits : List Char → Nat → Nat → Nat × Nat × List Char
  | [], acc, cnt => (acc, cnt, [])
  | c :: t, acc, cnt =>
    if c.isDigit then readDigits t (acc * 10 + (c.toNat - 48)) (cnt + 1)
    else (acc, cnt, c :: t)

/-- Parse the exponent part of a JSON number after the `e`/`E`: an
optional sign and at least one digit. -/
def parseExp (l : List Char) : Option (Int × List Char) :=
  let (eneg, l1) :=
    match l with
    | '+' :: t => (false, t)
    | '-' :: t => (true, t)
    | _ => (false, l)
  match l1 with
  | c :: _ =>
    if c.isDigit then
      let (v, _, r) := readDigits l1 0 0
      some (if eneg then -(v : Int) else (v : Int), r)
    else none
  | [] => none

/-- Parse a JSON number per the JSON grammar: optional minus; `0` or a
non-zero digit followed by digits (a leading zero is rejected); optional
fraction (dot followed by at least one digit); optional exponent.  The
value is the exact rational the literal denotes (module note). -/
def parseNum (l : List Char) : Option (JsValue × List Char) :=
  let (neg, l1) :=
    match l with
    | '-' :: t => (true, t)
    | _ => (false, l)
  let ipart : Option (Nat × List Char) :=
    match l1 with
    | '0' :: c :: t => if c.isDigit then none else some (0, c :: t)
    | '0' :: t => some (0, t)
    | c :: _ =>
      if c.isDigit then
        let (v, _, r) := readDigits l1 0 0
        some (v, r)
      else none
    | [] => none
  match ipart with
  | none => none
  | some (n, l2) =>
    let fpart : Option (Nat × Nat × List Char) :=
      match l2 with
      | '.' :: r =>
        match r with
        | c :: _ => if c.isDigit then some (readDigits r 0 0) else none
        | [] => none
      | _ => some (0, 0, l2)
    match fpart with
    | none => none
    | some (f, fc, l3) =>
      let epart : Option (Int × List Char) :=
        match l3 with
        | 'e' :: r => parseExp r
        | 'E' :: r => parseExp r
        | _ => some (0, l3)
      match epart with
      | none => none
      | some (e, l4) =>
        let mant : Int := ((n * 10 ^ fc + f : Nat) : Int)
        let smant : Int := if neg then -mant else mant
        let q : ℚ :=
          if 0 ≤ e then mkRat (smant * (10 : Int) ^ e.toNat) (10 ^ fc)
          else mkRat smant (10 ^ fc * 10 ^ (-e).toNat)
        some (.num q, l4)

/-- Modes of the fueled parser: a single value, the items of an array just
after `[` (`arrItems`, which still allows `]`), further array items after a
comma (`arrMore`, which requires a value — a trailing comma is invalid),
and likewise `objItems`/`objMore` for object members. -/
inductive PMode where
  | val : PMode
  | arrItems : PMode
  | arrMore : PMode
  | objItems : PMode
  | objMore : PMode

/-- The fueled recursive-descent JSON parser.  In the array (resp. object)
modes the input starts just after `[` or a comma (resp. after the opening
brace or a comma) and the result is the `JsValue.arr` (resp. `JsValue.obj`)
collected. -/
def parseF : Nat → PMode → List Char → Option (JsValue × List Char)
  | 0, _, _ => none
  | f + 1, .val, l =>
    match skipWs l with
    | '"' :: rest =>
      match parseStrAux rest with
      | some (s, r) => some (.str (String.mk s), r)
      | none => none
    | '[' :: rest => parseF f .arrItems rest
    | '\x7b' :: rest => parseF f .objItems rest
    | 't' :: 'r' :: 'u' :: 'e' :: rest => some (.bool true, rest)
    | 'f' :: 'a' :: 'l' :: 's' :: 'e' :: rest => some (.bool false, rest)
    | 'n' :: 'u' :: 'l' :: 'l' :: rest => some (.null, rest)
    | rest => parseNum rest
  | f + 1, .arrItems, l =>
    match skipWs l with
    | ']' :: rest => some (.arr [], rest)
    | l' => parseF f .arrMore l'
  | f + 1, .arrMore, l =>
    match parseF f .val l with
    | some (v, r) =>
      match skipWs r with
      | ',' :: r2 =>
        match parseF f .arrMore r2 with
        | some (.arr xs, r3) => some (.arr (v :: xs), r3)
        | _ => none
      | ']' :: r2 => some (.arr [v], r2)
      | _ => none
    | none => none
  | f + 1, .objItems, l =>
    match skipWs l with
    | '\x7d' :: rest => some (.obj [], rest)
    | l' => parseF f .objMore l'
  | f + 1, .objMore, l =>
    match skipWs l with
    | '"' :: l' =>
      match parseStrAux l' with
      | some (k, r) =>
        match skipWs r with
        | ':' :: r2 =>
          match parseF f .val r2 with
          | some (v, r3) =>
            match skipWs r3 with
            | ',' :: r4 =>
              match parseF f .objMore r4 with
              | some (.obj fs, r5) => some (.obj ((String.mk k, v) :: fs), r5)
              | _ => none
            | '\x7d' :: r4 => some (.obj [(String.mk k, v)], r4)
            | _ => none
          | none => none
        | _ => none
      | none => none
    | _ => none

/-- `JSON.parse`: parse a whole string as one JSON value, requiring only
whitespace after it. -/
def jsonParse (s : String) : Option JsValue :=
  match parseF (2 * s.length + 2) .val s.data with
  | some (v, rest) => if (skipWs rest).isEmpty then some v else none
  | none => none

/-! ## Request primitives -/

/-- The read request primitive `fetchData` (identical error behavior in
`src/index.js` and both variants in `src/lib/index.js`), applied to the
outcome of one HTTP round trip: a status outside `[200, 300)` rejects with
`HTTP status <code>`; otherwise the body is parsed as JSON, a parse failure
rejecting with a distinct message; a lower-level network failure is passed
through. -/
def fetchData : HttpResult → Except JsRejection JsValue
  | .netError m => .error ⟨m, none⟩
  | .response status body =>
    if status < 200 ∨ 300 ≤ status then
      .error ⟨"HTTP status " ++ toString status, none⟩
    else
      match jsonParse body with
      | some v => .ok v
      | none => .error ⟨"Failed to parse JSON response.", none⟩

/-- The write request primitive `postData`: same status window as
`fetchData`, but the non-success rejection is a plain object that carries
the raw response body alongside the message, so the caller can attempt to
extract a server-supplied error message. -/
def postData : HttpResult → Except JsRejection JsValue
  | .netError m => .error ⟨m, none⟩
  | .response status body =>
    if status < 200 ∨ 300 ≤ status then
      .error ⟨"HTTP status " ++ toString status, some body⟩
    else
      match jsonParse body with
      | some v => .ok v
      | none => .error ⟨"Failed to parse JSON response.", none⟩

/-! ## Domain read operations

Each operation is a function of the decoded result delivered by
`fetchData` for its endpoint; its `.then` shape-checks and reshapes the
value, and its `.catch` re-raises with an operation-specific message
prefix. -/

/-- `backendVersion` (`src/lib/index.js`; identical in `src/index.js` and
the bundled build): expects `\x7b data: \x7b version \x7d \x7d`.  The inner
shape check has no `else` branch: a truthy `data` without a truthy
`version` falls through and the promise resolves with `undefined`. -/
def backendVersion (r : Except JsRejection JsValue) : Outcome JsValue :=
  match r with
  | .error e => .rejected ("Failed to fetch backend version! " ++ e.message)
  | .ok obj =>
    if truthy obj && truthy (getField obj "data") then
      let data := getField obj "data"
      if truthy data && truthy (getField data "version") then
        .resolved (getField data "version")
      else
        .resolved .undefined
    else
      .rejected ("Failed to fetch backend version! Invalid response from the API.")

/-- The `.map` callback of `fetchHubs` applied to the elements of `data`
in order: JS evaluates the object literal's `hub.id` first, so a `null` or
`undefined` element throws the `TypeError` of that access and aborts the
whole map; every other element yields a `DeviceHub` carrying the client as
back-reference. -/
def mapHubs (c : Client) : List JsValue → Except String (List DeviceHub)
  | [] => .ok []
  | h :: t =>
    match nullishErr h "id" with
    | some m => .error m
    | none =>
      match mapHubs c t with
      | .error m => .error m
      | .ok rest =>
        .ok (⟨c, getField h "id", getField h "name", getField h "createdOn"⟩ :: rest)

/-- `fetchHubs` (`src/lib/index.js`): maps each element of `data` to a
`DeviceHub` carrying the client as back-reference; an error thrown inside
the `.map` callback (nullish element) is wrapped by the `.catch`.  The
source resolves with a record `\x7b hubs \x7d` wrapping this list; the
model resolves with the list itself. -/
def fetchHubs (c : Client) (r : Except JsRejection JsValue) : Outcome (List DeviceHub) :=
  match r with
  | .error e => .rejected ("Failed to fetch hubs! " ++ e.message)
  | .ok obj =>
    if truthy obj && truthy (getField obj "data") then
      let data := getField obj "data"
      match data with
      | .arr hs =>
        match mapHubs c hs with
        | .ok hubs => .resolved hubs
        | .error m => .rejected ("Failed to fetch hubs! " ++ m)
      | _ => .rejected ("Failed to fetch hubs! Invalid data format received from the API.")
    else
      .rejected ("Failed to fetch hubs! Invalid response from the API.")

/-- `fetchHub` (`src/lib/index.js`): a missing or empty hub id throws
synchronously; otherwise `data` with a truthy `id` yields a single
`DeviceHub`. -/
def fetchHub (c : Client) (hubId : String) (r : Except JsRejection JsValue) :
    Outcome DeviceHub :=
  if hubId = "" then .thrown "A valid hub ID is required."
  else
    match r with
    | .error e => .rejected ("Failed to fetch hub! " ++ e.message)
    | .ok obj =>
      if truthy obj && truthy (getField obj "data") then
        let data := getField obj "data"
        if truthy data && truthy (getField data "id") then
          .resolved ⟨c, getField data "id", getField data "name", getField data "createdOn"⟩
        else
          .rejected ("Failed to fetch hub! Invalid hub data received from the API.")
      else
        .rejected ("Failed to fetch hub! Invalid response from the API.")

/-- The per-shocker record built by `fetchShockers`'s `.map` callback. -/
def shockerRecord (s : JsValue) : JsValue :=
  .obj [("id", getField s "id"), ("rfId", getField s "rfId"),
        ("model", getField s "model"), ("name", getField s "name"),
        ("isPaused", getField s "isPaused"), ("createdOn", getField s "createdOn")]

/-- `data.find(h => h.id === id)`: scans the groupings in server order;
a `null` or `undefined` element throws the `TypeError` of the callback's
`h.id` access, a later element is never reached; otherwise the first
grouping whose `id` is strictly equal to the hub's id is selected
(`none` when the scan completes without a match). -/
def findShockerHub (id : JsValue) : List JsValue → Except String (Option JsValue)
  | [] => .ok none
  | h :: t =>
    match nullishErr h "id" with
    | some m => .error m
    | none =>
      if jsStrictEq (getField h "id") id then .ok (some h)
      else findShockerHub id t

/-- The `.map` callback of `fetchShockers` over the matched grouping's
`shockers`: a nullish element throws the `TypeError` of the literal's
first access `shocker.id` and aborts the map; every other element yields
its six-field record. -/
def mapShockers : List JsValue → Except String (List JsValue)
  | [] => .ok []
  | sh :: t =>
    match nullishErr sh "id" with
    | some m => .error m
    | none =>
      match mapShockers t with
      | .error m => .error m
      | .ok rest => .ok (shockerRecord sh :: rest)

/-- `fetchShockers` (`src/lib/index.js`, identical in the bundled build):
throws synchronously on a falsy hub id; then scans `data` for the grouping
matching the hub's id and maps its `shockers`, a `TypeError` raised inside
the `find` or `map` callback being wrapped into a rejection by the
`.catch`.  The `Array.isArray` check has no `else` branch, so a truthy
non-array `data` falls through and the promise resolves with `undefined`.
A matched grouping with a truthy non-array `shockers` makes `.map` raise a
`TypeError`, which `.catch` wraps into a rejection. -/
def fetchShockers (hub : DeviceHub) (r : Except JsRejection JsValue) : Outcome JsValue :=
  if !(truthy hub.id) then .thrown "A valid hub object with an ID is required."
  else
    match r with
    | .error e => .rejected ("Failed to fetch shockers! " ++ e.message)
    | .ok obj =>
      if truthy obj && truthy (getField obj "data") then
        let data := getField obj "data"
        if truthy data && data.isArr then
          match data with
          | .arr groups =>
            match findShockerHub hub.id groups with
            | .error m => .rejected ("Failed to fetch shockers! " ++ m)
            | .ok found =>
              let hubData := match found with
                | some g => g
                | none => JsValue.undefined
              if truthy hubData && truthy (getField hubData "shockers") then
                match getField hubData "shockers" with
                | .arr ss =>
                  match mapShockers ss with
                  | .ok recs => .resolved (.arr recs)
                  | .error m => .rejected ("Failed to fetch shockers! " ++ m)
                | _ =>
                  .rejected
                    ("Failed to fetch shockers! hubData.shockers.map is not a function")
              else
                .rejected ("Failed to fetch shockers! No shockers found for the specified hub.")
          | _ => .resolved .undefined
        else
          .resolved .undefined
      else
        .rejected ("Failed to fetch shockers! Invalid response from the API.")

/-! ## Command dispatch -/

/-- Left-pad a digit string with zeros to `k` digits. -/
def padZeros (s : String) (k : Nat) : String :=
  String.mk (List.replicate (k - s.length) '0') ++ s

/-- Smallest `k` (found within `fuel` steps) such that the denominator
`d` divides `10 ^ k`: each step divides `d` by its common factor with 10.
`none` when `d` has a prime factor other than 2 and 5. -/
def pow10Scale : Nat → Nat → Nat → Option Nat
  | 0, d, k => if d = 1 then some k else none
  | f + 1, d, k =>
    if d = 1 then some k
    else
      let g := Nat.gcd d 10
      if g = 1 then none else pow10Scale f (d / g) (k + 1)

/-- JS decimal rendering of a number: an integer renders as its digits, a
number whose denominator divides a power of ten (every number `jsonParse`
produces is of this form) renders with the minimal number of decimals —
no trailing zeros, matching the shortest-decimal display of JS for such
values.  JS's switch to exponential notation at extreme magnitudes and
IEEE-754 rounding are outside the embedding (no theorem's scope
interpolates a non-string value).  The last branch is unreachable for
parser-produced numbers. -/
def ratToDisplay (q : ℚ) : String :=
  match pow10Scale q.den q.den 0 with
  | some 0 => toString q.num
  | some k =>
    let sign := if q.num < 0 then "-" else ""
    let n := q.num.natAbs * 10 ^ k / q.den
    sign ++ toString (n / 10 ^ k) ++ "." ++ padZeros (toString (n % 10 ^ k)) k
  | none => toString q.num ++ " div " ++ toString q.den

mutual

/-- JS template-literal interpolation of a value (`String(v)`), as used
for `err.message` after the error-remapping assignment: a string passes
through, an array comma-joins its elements (the `Array.prototype.toString`
behavior, nullish elements blank), a plain object renders as
`[object Object]`. -/
def jsToString : JsValue → String
  | .str s => s
  | .num q => ratToDisplay q
  | .bool true => "true"
  | .bool false => "false"
  | .null => "null"
  | .undefined => "undefined"
  | .arr xs => jsArrJoin xs
  | .obj _ => "[object Object]"

/-- `Array.prototype.join` with the default comma separator: `null` and
`undefined` elements contribute an empty string. -/
def jsArrJoin : List JsValue → String
  | [] => ""
  | [.null] => ""
  | [.undefined] => ""
  | [v] => jsToString v
  | .null :: vs => "," ++ jsArrJoin vs
  | .undefined :: vs => "," ++ jsArrJoin vs
  | v :: vs => jsToString v ++ "," ++ jsArrJoin vs

end

/-- The request body built by `sendShockData`: a single-element command
batch.  `customName || null` maps a falsy label to `null`. -/
def shockPayload (shockId type_ : String) (intensity duration : Int)
    (customName : String) (exclusive : Bool) : JsValue :=
  .obj [("shocks", .arr [.obj [("id", .str shockId), ("type", .str type_),
          ("intensity", .num intensity), ("duration", .num duration),
          ("exclusive", .bool exclusive)]]),
        ("customName", if customName = "" then .null else .str customName)]

/-- The `.catch` of `sendShockData`: when the rejection carries a response
body, best-effort-parse it as JSON and substitute a truthy `message` field
into the error; a parse failure or missing message keeps the original
message.  The result is always the final rejection message — this mapping
is total, it cannot itself throw. -/
def sendCatchMsg (e : JsRejection) : String :=
  let m :=
    match e.body with
    | none => e.message
    | some b =>
      match jsonParse b with
      | none => e.message
      | some er =>
        if truthy er && truthy (getField er "message") then
          jsToString (getField er "message")
        else e.message
  "Failed to send shock data! " ++ m

/-- The shared `.then`/`.catch` continuation of `sendShockData` applied to
the write primitive's outcome: a response with a truthy `message` field
resolves with it; otherwise the `Invalid response` error (or the
lower-level rejection) is wrapped by `sendCatchMsg`. -/
def sendShockCont (r : Except JsRejection JsValue) : Outcome JsValue :=
  match r with
  | .ok resp =>
    if truthy resp && truthy (getField resp "message") then
      .resolved (getField resp "message")
    else
      .rejected (sendCatchMsg ⟨"Invalid response from the API.", none⟩)
  | .error e => .rejected (sendCatchMsg e)

/-- `sendShockData` as defined in the `src/lib/index.js` source class: the
only synchronous validation is the duration bound; the payload is then
posted (the transport is a function of the request body, so a thrown
validation error means the transport is never consulted).  The `exclusive`
flag is fixed `true` in this variant. -/
def sendShockData (shockId type_ : String) (intensity duration : Int)
    (customName : String) (transport : JsValue → HttpResult) : Outcome JsValue :=
  if duration < 300 ∨ duration > 65535 then
    .thrown "Duration must be between 300 and 65535 seconds."
  else
    sendShockCont (postData (transport
      (shockPayload shockId type_ intensity duration customName true)))

/-- `sendShockData` as shipped in the bundled build inside
`src/lib/index.js`: after the duration bound it additionally validates the
shocker id and that the type is one of the four enumerated command types,
each failure thrown before the transport is consulted. -/
def distSendShockData (shockId type_ : String) (intensity duration : Int)
    (customName : String) (exclusive : Bool) (transport : JsValue → HttpResult) :
    Outcome JsValue :=
  if duration < 300 ∨ duration > 65535 then
    .thrown "Duration must be between 300 and 65535 seconds."
  else if shockId = "" then
    .thrown "A valid shocker ID is required."
  else if type_ = "" ∨ ¬ (["Shock", "Vibrate", "Sound", "Stop"].contains type_) then
    .thrown "A valid shock type is required (Shock, Vibrate, Sound, Stop)."
  else
    sendShockCont (postData (transport
      (shockPayload shockId type_ intensity duration customName exclusive)))

/-! ## Helper lemmas -/

theorem hasPref_append (l t : List Char) : hasPref l (l ++ t) = true := by
  induction l with
  | nil => rfl
  | cons a s ih => simp [hasPref, ih]

theorem hasSub_append_left (sub post : List Char) : hasSub sub (sub ++ post) = true := by
  cases sub with
  | nil =>
    cases post with
    | nil => rfl
    | cons c t => simp [hasSub, hasPref]
  | cons a s =>
    simp only [hasSub, List.cons_append]
    have := hasPref_append (a :: s) post
    simp only [List.cons_append] at this
    simp [this]

theorem hasSub_cons (sub : List Char) (c : Char) (t : List Char)
    (h : hasSub sub t = true) : hasSub sub (c :: t) = true := by
  simp [hasSub, h]

theorem hasSub_of_middle (pre sub post : List Char) :
    hasSub sub (pre ++ sub ++ post) = true := by
  induction pre with
  | nil => simpa using hasSub_append_left sub post
  | cons c t ih => simpa using hasSub_cons _ c _ (by simpa using ih)

theorem containsStr_append (pre sub post : String) :
    containsStr (pre ++ sub ++ post) sub = true := by
  simp only [containsStr, String.data_append]
  exact hasSub_of_middle pre.data sub.data post.data

theorem beginsWith_append (p t : String) : beginsWith (p ++ t) p = true := by
  simp only [beginsWith, String.data_append]
  exact hasPref_append p.data t.data

theorem find?_eq_some_split {α : Type} (p : α → Bool) (l : List α) (a : α)
    (h : l.find? p = some a) :
    p a = true ∧ ∃ pre post, l = pre ++ a :: post ∧ ∀ x ∈ pre, p x = false := by
  induction l with
  | nil => simp [List.find?] at h
  | cons b t ih =>
    by_cases hb : p b = true
    · simp [List.find?, hb] at h
      subst h
      exact ⟨hb, [], t, rfl, by simp⟩
    · rw [List.find?] at h
      rw [Bool.not_eq_true] at hb
      rw [hb] at h
      obtain ⟨hpa, pre, post, hsplit, hpre⟩ := ih h
      refine ⟨hpa, b :: pre, post, by simp [hsplit], ?_⟩
      intro x hx
      rcases List.mem_cons.mp hx with rfl | hx'
      · simpa using hb
      · exact hpre x hx'

theorem sendShockCont_ne_thrown (r : Except JsRejection JsValue) (m : String) :
    sendShockCont r ≠ .thrown m := by
  cases r with
  | ok v =>
    simp only [sendShockCont]
    split <;> simp
  | error e => simp [sendShockCont]

/-! ## Claim theorems -/

/-- C1: in every `sendShockData` variant, a duration outside
`300 ≤ duration ≤ 65535` throws the duration `InvalidArgument` error
synchronously — uniformly in the transport, so before any network request
is issued — while an in-range duration passes the duration validation: the
source variant then never throws at all, and the bundled variant can no
longer throw the duration error. -/
theorem c1_duration_validation (shockId type_ : String) (intensity duration : Int)
    (customName : String) (exclusive : Bool) (transport : JsValue → HttpResult) :
    ((duration < 300 ∨ duration > 65535) →
      sendShockData shockId type_ intensity duration customName transport
        = .thrown "Duration must be between 300 and 65535 seconds."
      ∧ distSendShockData shockId type_ intensity duration customName exclusive transport
        = .thrown "Duration must be between 300 and 65535 seconds.")
    ∧ (300 ≤ duration → duration ≤ 65535 →
      (∀ m, sendShockData shockId type_ intensity duration customName transport
        ≠ Outcome.thrown m)
      ∧ distSendShockData shockId type_ intensity duration customName exclusive transport
        ≠ .thrown "Duration must be between 300 and 65535 seconds.") := by
  constructor
  · intro h
    constructor
    · simp [sendShockData, h]
    · simp [distSendShockData, h]
  · intro h1 h2
    have hno : ¬ (duration < 300 ∨ duration > 65535) := by omega
    constructor
    · intro m
      simp only [sendShockData, if_neg hno]
      exact sendShockCont_ne_thrown _ m
    · simp only [distSendShockData, if_neg hno]
      split
      · simp
      · split
        · simp
        · exact sendShockCont_ne_thrown _ _

/-- C1 witness: the boundary inputs 299 and 65536 throw the duration
error; 300 and 65535 pass the duration validation. -/
theorem c1_duration_validation_witness :
    (sendShockData "s1" "Shock" 1 299 "shock.js" (fun _ => .response 200 "")
      = .thrown "Duration must be between 300 and 65535 seconds.")
    ∧ (distSendShockData "s1" "Shock" 1 65536 "shock.js" true (fun _ => .response 200 "")
      = .thrown "Duration must be between 300 and 65535 seconds.")
    ∧ (sendShockData "s1" "Shock" 1 300 "shock.js" (fun _ => .response 200 "")
      ≠ Outcome.thrown "Duration must be between 300 and 65535 seconds.")
    ∧ (distSendShockData "s1" "Shock" 1 65535 "shock.js" true (fun _ => .response 200 "")
      ≠ .thrown "Duration must be between 300 and 65535 seconds.") := by
  refine ⟨?_, ?_, ?_, ?_⟩
  · exact ((c1_duration_validation "s1" "Shock" 1 299 "shock.js" true
      (fun _ => .response 200 "")).1 (by omega)).1
  · exact ((c1_duration_validation "s1" "Shock" 1 65536 "shock.js" true
      (fun _ => .response 200 "")).1 (by omega)).2
  · exact ((c1_duration_validation "s1" "Shock" 1 300 "shock.js" true
      (fun _ => .response 200 "")).2 (by omega) (by omega)).1 _
  · exact ((c1_duration_validation "s1" "Shock" 1 65535 "shock.js" true
      (fun _ => .response 200 "")).2 (by omega) (by omega)).2

/-- C2 counterexample: in the `src/lib/index.js` source class,
`sendShockData` performs no command-type validation.  Called with the
non-enumerated type `"Foo"` (and an otherwise valid duration) it throws no
`InvalidArgument` error; the request is issued and the call resolves with
the transport's success message. -/
theorem c2_counterexample :
    sendShockData "s1" "Foo" 1 1000 "shock.js"
      (fun _ => .response 200 "\x7b\"message\":\"ok\"\x7d")
      = .resolved (.str "ok") := by
  rfl

/-- C2 amended: in the bundled build's `sendShockData` (the only variant
that validates the command type), given a valid duration and shocker id,
the type is accepted exactly when it is one of `Shock`, `Vibrate`,
`Sound`, `Stop`; any other value throws the type `InvalidArgument` error
uniformly in the transport, hence before any network request.  The
`src/lib/index.js` source variant performs no type validation
(see the counterexample). -/
theorem c2_type_validation (shockId type_ : String) (intensity duration : Int)
    (customName : String) (exclusive : Bool) (transport : JsValue → HttpResult)
    (h1 : 300 ≤ duration) (h2 : duration ≤ 65535) (hid : shockId ≠ "") :
    (type_ ∉ (["Shock", "Vibrate", "Sound", "Stop"] : List String) →
      distSendShockData shockId type_ intensity duration customName exclusive transport
        = .thrown "A valid shock type is required (Shock, Vibrate, Sound, Stop).")
    ∧ (type_ ∈ (["Shock", "Vibrate", "Sound", "Stop"] : List String) →
      ∀ m, distSendShockData shockId type_ intensity duration customName exclusive transport
        ≠ Outcome.thrown m) := by
  have hdur : ¬ (duration < 300 ∨ duration > 65535) := by omega
  constructor
  · intro hmem
    have hcond : type_ = "" ∨
        ¬ ((["Shock", "Vibrate", "Sound", "Stop"] : List String).contains type_ = true) := by
      right
      simpa [List.elem_iff] using hmem
    simp only [distSendShockData, if_neg hdur, if_neg hid, if_pos hcond]
  · intro hmem m
    have hne : type_ ≠ "" := by
      intro h
      rw [h] at hmem
      simp at hmem
    have hcond : ¬ (type_ = "" ∨
        ¬ ((["Shock", "Vibrate", "Sound", "Stop"] : List String).contains type_ = true)) := by
      push_neg
      exact ⟨hne, by simpa [List.elem_iff] using hmem⟩
    simp only [distSendShockData, if_neg hdur, if_neg hid, if_neg hcond]
    exact sendShockCont_ne_thrown _ m

/-- C2 witness for the amended claim: `"Bzz"` is rejected synchronously
with the type error, while `"Vibrate"` passes validation and nothing is
thrown. -/
theorem c2_type_validation_witness :
    (distSendShockData "s1" "Bzz" 1 1000 "shock.js" true (fun _ => .response 200 "")
      = .thrown "A valid shock type is required (Shock, Vibrate, Sound, Stop).")
    ∧ (distSendShockData "s1" "Vibrate" 1 1000 "shock.js" true (fun _ => .response 200 "")
      ≠ Outcome.thrown "A valid shock type is required (Shock, Vibrate, Sound, Stop).") := by
  constructor
  · exact (c2_type_validation "s1" "Bzz" 1 1000 "shock.js" true (fun _ => .response 200 "")
      (by omega) (by omega) (by decide)).1 (by decide)
  · exact (c2_type_validation "s1" "Vibrate" 1 1000 "shock.js" true (fun _ => .response 200 "")
      (by omega) (by omega) (by decide)).2 (by decide) _

/-- Character-wise lower-casing (used only to state that the code's fixed
error prefix matches the spec's lower-case rendering of it). -/
def lowerStr (s : String) : String :=
  String.mk (s.data.map Char.toLower)

theorem containsStr_pre (pre sub : String) : containsStr (pre ++ sub) sub = true := by
  simp only [containsStr, String.data_append]
  have h := hasSub_of_middle pre.data sub.data []
  simpa using h

theorem truthy_of_getField_str (v : JsValue) (k m : String)
    (h : getField v k = .str m) : truthy v = true := by
  cases v <;> simp_all [getField, truthy]

theorem jsToString_str (s : String) : jsToString (.str s) = s := by
  simp [jsToString]

/-- C3: when the POST fails with a response body, `sendShockData` parses
the body as JSON and, if it carries a (truthy) string `message` field,
the rejection message is the remap prefix followed by that
server-supplied message, which it therefore contains; if the body does
not parse as JSON the original failure message (`HTTP status <code>`) is
kept; and the remapping itself never throws — every outcome of the
transport yields a resolution or a rejection, never a synchronous
error. -/
theorem c3_error_remapping (shockId type_ : String) (intensity duration : Int)
    (customName : String) (h1 : 300 ≤ duration) (h2 : duration ≤ 65535) :
    (∀ status body er m, (status < 200 ∨ 300 ≤ status) → jsonParse body = some er →
      getField er "message" = .str m → m ≠ "" →
      sendShockData shockId type_ intensity duration customName
          (fun _ => .response status body)
        = .rejected ("Failed to send shock data! " ++ m)
      ∧ containsStr ("Failed to send shock data! " ++ m) m = true)
    ∧ (∀ status body, (status < 200 ∨ 300 ≤ status) → jsonParse body = none →
      sendShockData shockId type_ intensity duration customName
          (fun _ => .response status body)
        = .rejected ("Failed to send shock data! " ++ ("HTTP status " ++ toString status)))
    ∧ (∀ transport m,
      sendShockData shockId type_ intensity duration customName transport
        ≠ Outcome.thrown m) := by
  have hdur : ¬ (duration < 300 ∨ duration > 65535) := by omega
  refine ⟨?_, ?_, ?_⟩
  · intro status body er m hst hp hmsg hm
    have her : truthy er = true := truthy_of_getField_str er "message" m hmsg
    have hsm : truthy (.str m) = true := by
      simp [truthy, hm]
    constructor
    · simp [sendShockData, if_neg hdur, postData, if_pos hst, sendShockCont,
        sendCatchMsg, hp, hmsg, her, hsm, jsToString_str]
    · exact containsStr_pre "Failed to send shock data! " _
  · intro status body hst hp
    simp [sendShockData, if_neg hdur, postData, if_pos hst, sendShockCont,
      sendCatchMsg, hp]
  · intro transport m
    simp only [sendShockData, if_neg hdur]
    exact sendShockCont_ne_thrown _ m

/-- C3 witness: HTTP 400 with body `\x7b"message":"shocker not found"\x7d`
rejects with a message that is the remap prefix plus, and hence contains,
`shocker not found`. -/
theorem c3_error_remapping_witness :
    sendShockData "s1" "Shock" 1 1000 "shock.js"
        (fun _ => .response 400 "\x7b\"message\":\"shocker not found\"\x7d")
      = .rejected "Failed to send shock data! shocker not found"
    ∧ containsStr "Failed to send shock data! shocker not found" "shocker not found"
      = true := by
  have h := ((c3_error_remapping "s1" "Shock" 1 1000 "shock.js"
      (by omega) (by omega)).1 400 "\x7b\"message\":\"shocker not found\"\x7d"
      (.obj [("message", .str "shocker not found")]) "shocker not found"
      (by omega) (by rfl) (by rfl) (by decide))
  exact ⟨h.1, h.2⟩

theorem getField_single (k : String) (v : JsValue) : getField (.obj [(k, v)]) k = v := by
  simp [getField]

theorem truthy_objv (fs : List (String × JsValue)) : truthy (.obj fs) = true := rfl

theorem truthy_arrv (l : List JsValue) : truthy (.arr l) = true := rfl

theorem truthy_undefinedv : truthy .undefined = false := rfl

theorem isArr_arrv (l : List JsValue) : (JsValue.arr l).isArr = true := rfl

theorem jsStrictEq_truthy (a b : JsValue) (h : jsStrictEq a b = true)
    (hb : truthy b = true) : truthy a = true := by
  cases a <;> cases b <;> simp_all [jsStrictEq, truthy]

theorem truthy_of_match (g hubId : JsValue)
    (h : jsStrictEq (getField g "id") hubId = true) (hid : truthy hubId = true) :
    truthy g = true := by
  cases g <;> simp_all [getField, jsStrictEq, truthy] <;>
    cases hubId <;> simp_all [jsStrictEq]

theorem isObj_truthy (v : JsValue) (h : v.isObj = true) : truthy v = true := by
  cases v <;> simp_all [JsValue.isObj, truthy]

theorem nullishErr_none (v : JsValue) (k : String) (h : truthy v = true) :
    nullishErr v k = none := by
  cases v <;> simp_all [truthy, nullishErr]

theorem findShockerHub_ok (id : JsValue) (l : List JsValue)
    (h : ∀ g ∈ l, g.isObj = true) :
    findShockerHub id l = .ok (l.find? (fun g => jsStrictEq (getField g "id") id)) := by
  induction l with
  | nil => rfl
  | cons g t ih =>
    have hn : nullishErr g "id" = none :=
      nullishErr_none g "id" (isObj_truthy g (h g (by simp)))
    cases hp : jsStrictEq (getField g "id") id with
    | true => simp [findShockerHub, hn, List.find?, hp]
    | false =>
      simp [findShockerHub, hn, List.find?, hp, ih (fun x hx => h x (by simp [hx]))]

theorem mapShockers_ok (l : List JsValue) (h : ∀ x ∈ l, x.isObj = true) :
    mapShockers l = .ok (l.map shockerRecord) := by
  induction l with
  | nil => rfl
  | cons x t ih =>
    have hn := nullishErr_none x "id" (isObj_truthy x (h x (by simp)))
    simp [mapShockers, hn, ih (fun y hy => h y (by simp [hy]))]

theorem mapHubs_ok (c : Client) (l : List JsValue) (h : ∀ x ∈ l, x.isObj = true) :
    mapHubs c l = .ok (l.map fun hub =>
      ⟨c, getField hub "id", getField hub "name", getField hub "createdOn"⟩) := by
  induction l with
  | nil => rfl
  | cons x t ih =>
    have hn := nullishErr_none x "id" (isObj_truthy x (h x (by simp)))
    simp [mapHubs, hn, ih (fun y hy => h y (by simp [hy]))]

/-- C4: on a decoded `/1/shockers/own` response whose `data` is a sequence
of per-hub grouping objects, `fetchShockers` selects via a linear scan
the first grouping whose `id` strictly equals the hub's id; with no match
it rejects with the domain error, as it does when the matched grouping
has no `shockers` field; and on a match whose `shockers` is a sequence of
record objects it resolves with those shockers mapped in order to
`id`/`rfId`/`model`/`name`/`isPaused`/`createdOn` records. -/
theorem c4_fetchShockers_scan (hub : DeviceHub) (groups : List JsValue)
    (hid : truthy hub.id = true) (hobjs : ∀ g ∈ groups, g.isObj = true) :
    (groups.find? (fun h => jsStrictEq (getField h "id") hub.id) = none →
      fetchShockers hub (.ok (.obj [("data", .arr groups)]))
        = .rejected "Failed to fetch shockers! No shockers found for the specified hub.")
    ∧ (∀ g, groups.find? (fun h => jsStrictEq (getField h "id") hub.id) = some g →
      jsStrictEq (getField g "id") hub.id = true
      ∧ ∃ pre post, groups = pre ++ g :: post
          ∧ ∀ g' ∈ pre, jsStrictEq (getField g' "id") hub.id = false)
    ∧ (∀ g, groups.find? (fun h => jsStrictEq (getField h "id") hub.id) = some g →
      getField g "shockers" = .undefined →
      fetchShockers hub (.ok (.obj [("data", .arr groups)]))
        = .rejected "Failed to fetch shockers! No shockers found for the specified hub.")
    ∧ (∀ g ss, groups.find? (fun h => jsStrictEq (getField h "id") hub.id) = some g →
      getField g "shockers" = .arr ss → (∀ x ∈ ss, x.isObj = true) →
      fetchShockers hub (.ok (.obj [("data", .arr groups)]))
        = .resolved (.arr (ss.map shockerRecord))) := by
  have hfs := findShockerHub_ok hub.id groups hobjs
  refine ⟨?_, ?_, ?_, ?_⟩
  · intro hfind
    simp [fetchShockers, hid, getField_single, hfs, hfind,
      truthy_objv, truthy_arrv, truthy_undefinedv, isArr_arrv]
  · intro g hfind
    obtain ⟨hp, pre, post, hsplit, hpre⟩ := find?_eq_some_split _ _ _ hfind
    exact ⟨hp, pre, post, hsplit, hpre⟩
  · intro g hfind hshockers
    have hp := List.find?_some hfind
    have hg : truthy g = true := truthy_of_match g hub.id hp hid
    simp [fetchShockers, hid, getField_single, hfs, hfind, hg, hshockers,
      truthy_objv, truthy_arrv, truthy_undefinedv, isArr_arrv]
  · intro g ss hfind hshockers hss
    have hp := List.find?_some hfind
    have hg : truthy g = true := truthy_of_match g hub.id hp hid
    simp [fetchShockers, hid, getField_single, hfs, hfind, hg, hshockers,
      mapShockers_ok ss hss,
      truthy_objv, truthy_arrv, truthy_undefinedv, isArr_arrv]

/-- C4 witness: on the spec's example response, the hub with id `h1`
resolves to exactly the one mapped shocker record `s1`, and the hub with
id `h2` (no match) rejects with the domain error. -/
theorem c4_fetchShockers_scan_witness :
    (fetchShockers ⟨⟨"k", "https://api.openshock.app/"⟩, .str "h1", .str "Hub1", .str "t"⟩
      (.ok (.obj [("data", .arr [.obj [("id", .str "h1"),
        ("shockers", .arr [.obj [("id", .str "s1"), ("rfId", .str "r1"),
          ("model", .str "m"), ("name", .str "n"), ("isPaused", .bool false),
          ("createdOn", .str "t")]])]])]))
      = .resolved (.arr [.obj [("id", .str "s1"), ("rfId", .str "r1"),
          ("model", .str "m"), ("name", .str "n"), ("isPaused", .bool false),
          ("createdOn", .str "t")]]))
    ∧ (fetchShockers ⟨⟨"k", "https://api.openshock.app/"⟩, .str "h2", .str "Hub2", .str "t"⟩
      (.ok (.obj [("data", .arr [.obj [("id", .str "h1"),
        ("shockers", .arr [.obj [("id", .str "s1"), ("rfId", .str "r1"),
          ("model", .str "m"), ("name", .str "n"), ("isPaused", .bool false),
          ("createdOn", .str "t")]])]])]))
      = .rejected "Failed to fetch shockers! No shockers found for the specified hub.") := by
  constructor
  · exact ((c4_fetchShockers_scan
      ⟨⟨"k", "https://api.openshock.app/"⟩, .str "h1", .str "Hub1", .str "t"⟩
      [.obj [("id", .str "h1"),
        ("shockers", .arr [.obj [("id", .str "s1"), ("rfId", .str "r1"),
          ("model", .str "m"), ("name", .str "n"), ("isPaused", .bool false),
          ("createdOn", .str "t")]])]] rfl (by decide)).2.2.2
      _ _ rfl rfl (by decide))
  · exact ((c4_fetchShockers_scan
      ⟨⟨"k", "https://api.openshock.app/"⟩, .str "h2", .str "Hub2", .str "t"⟩
      [.obj [("id", .str "h1"),
        ("shockers", .arr [.obj [("id", .str "s1"), ("rfId", .str "r1"),
          ("model", .str "m"), ("name", .str "n"), ("isPaused", .bool false),
          ("createdOn", .str "t")]])]] rfl (by decide)).1 rfl)

/-- C5: the code contradicts the intended total behavior.  When the
decoded response's `data` field is truthy but not a sequence — here the
response decoded from `\x7b"data":"x"\x7d` — `fetchShockers` neither
resolves with a mapped sequence nor rejects: the `Array.isArray` branch
has no `else`, the callback returns `undefined`, and the promise resolves
with no value. -/
theorem c5_fall_through :
    fetchShockers ⟨⟨"k", "https://api.openshock.app/"⟩, .str "h1", .str "Hub1", .str "t"⟩
      (.ok (.obj [("data", .str "x")])) = .resolved .undefined := by
  rfl

/-- C6: `backendVersion` resolves to the version string on a
`\x7b data: \x7b version \x7d \x7d`-shaped response; on a response missing
`data` it rejects, and on any lower-level error it rejects, both times
with the message beginning with the same fixed operation prefix, whose
lower-casing is exactly the claimed `failed to fetch backend version!`
phrase. -/
theorem c6_backendVersion (s : String) (hs : s ≠ "") (obj : JsValue)
    (hobj : ¬ (truthy obj = true ∧ truthy (getField obj "data") = true))
    (e : JsRejection) :
    backendVersion (.ok (.obj [("data", .obj [("version", .str s)])]))
      = .resolved (.str s)
    ∧ backendVersion (.ok obj)
      = .rejected ("Failed to fetch backend version! "
          ++ "Invalid response from the API.")
    ∧ backendVersion (.error e)
      = .rejected ("Failed to fetch backend version! " ++ e.message)
    ∧ beginsWith ("Failed to fetch backend version! "
        ++ "Invalid response from the API.") "Failed to fetch backend version! " = true
    ∧ beginsWith ("Failed to fetch backend version! " ++ e.message)
        "Failed to fetch backend version! " = true
    ∧ lowerStr "Failed to fetch backend version! "
      = "failed to fetch backend version! " := by
  refine ⟨?_, ?_, ?_, ?_, ?_, ?_⟩
  · simp [backendVersion, getField_single, truthy_objv, truthy, hs]
  · have hcond : ¬ (truthy obj && truthy (getField obj "data")) = true := by
      simpa [Bool.and_eq_true] using hobj
    simp [backendVersion, hcond]
  · rfl
  · exact beginsWith_append _ _
  · exact beginsWith_append _ _
  · decide

/-- C6 witness: the spec's example `\x7b"data":\x7b"version":"1.2.3"\x7d\x7d`
resolves to `1.2.3`, and the shapeless response `null` rejects with the
prefixed message. -/
theorem c6_backendVersion_witness :
    backendVersion (.ok (.obj [("data", .obj [("version", .str "1.2.3")])]))
      = .resolved (.str "1.2.3")
    ∧ backendVersion (.ok .null)
      = .rejected ("Failed to fetch backend version! "
          ++ "Invalid response from the API.") := by
  have h := c6_backendVersion "1.2.3" (by decide) .null (by simp [truthy])
    ⟨"HTTP status 500", none⟩
  exact ⟨h.1, h.2.1⟩

/-- C10: a truthy `data` lacking a `version` field — the response
`\x7b"data":\x7b\x7d\x7d` — makes the inner shape check of
`backendVersion` fall through without returning or raising; the promise
resolves with `undefined` rather than rejecting. -/
theorem c10_version_fall_through :
    backendVersion (.ok (.obj [("data", .obj [])])) = .resolved .undefined := by
  rfl

/-- C7: when the decoded `/1/devices` response's `data` is a sequence of
raw hub objects, `fetchHubs` resolves with every element mapped, in
server order, to a `DeviceHub` carrying `id`, `name`, `createdOn` and the
client as back-reference; a truthy non-sequence `data` rejects with the
data-format domain error, and an absent (falsy) `data` rejects with the
invalid-response domain error. -/
theorem c7_fetchHubs (c : Client) (hs : List JsValue) (obj : JsValue) :
    ((∀ x ∈ hs, x.isObj = true) →
      fetchHubs c (.ok (.obj [("data", .arr hs)]))
        = .resolved (hs.map (fun hub =>
            ⟨c, getField hub "id", getField hub "name", getField hub "createdOn"⟩)))
    ∧ (truthy obj = true → truthy (getField obj "data") = true →
        (getField obj "data").isArr = false →
        fetchHubs c (.ok obj)
          = .rejected "Failed to fetch hubs! Invalid data format received from the API.")
    ∧ (¬ (truthy obj = true ∧ truthy (getField obj "data") = true) →
        fetchHubs c (.ok obj)
          = .rejected "Failed to fetch hubs! Invalid response from the API.") := by
  refine ⟨?_, ?_, ?_⟩
  · intro hobjs
    simp [fetchHubs, getField_single, truthy_objv, truthy_arrv, mapHubs_ok c hs hobjs]
  · intro h1 h2 h3
    have hcond : (truthy obj && truthy (getField obj "data")) = true := by
      simp [h1, h2]
    simp only [fetchHubs, hcond, if_true]
    cases hd : getField obj "data" <;> simp_all [JsValue.isArr]
  · intro hcond
    have hb : (truthy obj && truthy (getField obj "data")) = true → False := by
      intro hab
      exact hcond (by simpa [Bool.and_eq_true] using hab)
    simp only [fetchHubs]
    rw [if_neg (by intro hab; exact hb hab)]

/-- C7 witness: the spec's example devices response resolves to one
`DeviceHub` with id `h1` (and the client attached); a `null` response and
a truthy non-array `data` both reject with their domain errors. -/
theorem c7_fetchHubs_witness :
    fetchHubs ⟨"k", "https://api.openshock.app/"⟩
      (.ok (.obj [("data", .arr [.obj [("id", .str "h1"), ("name", .str "Hub1"),
        ("createdOn", .str "2024-01-01")]])]))
      = .resolved [⟨⟨"k", "https://api.openshock.app/"⟩, .str "h1", .str "Hub1",
          .str "2024-01-01"⟩]
    ∧ fetchHubs ⟨"k", "https://api.openshock.app/"⟩ (.ok (.obj [("data", .str "x")]))
      = .rejected "Failed to fetch hubs! Invalid data format received from the API."
    ∧ fetchHubs ⟨"k", "https://api.openshock.app/"⟩ (.ok .null)
      = .rejected "Failed to fetch hubs! Invalid response from the API." := by
  refine ⟨?_, ?_, ?_⟩
  · exact (c7_fetchHubs ⟨"k", "https://api.openshock.app/"⟩
      [.obj [("id", .str "h1"), ("name", .str "Hub1"), ("createdOn", .str "2024-01-01")]]
      .null).1 (by decide)
  · exact (c7_fetchHubs ⟨"k", "https://api.openshock.app/"⟩ []
      (.obj [("data", .str "x")])).2.1 rfl rfl rfl
  · exact (c7_fetchHubs ⟨"k", "https://api.openshock.app/"⟩ [] .null).2.2
      (by simp [truthy])

/-- C8: `fetchData` rejects with an `HTTP status <code>` error exactly
when the status is outside `[200, 300)` — an in-range status either
resolves or fails with the parse error, whose message does not begin with
the HTTP-status phrase — and the error message contains the numeric
status; consequently each of the four domain read operations run against
an HTTP 500 response rejects with a message containing `500`. -/
theorem c8_http_status (status : Nat) (b : String) (c : Client) (hubId : String)
    (hub : DeviceHub) (hne : hubId ≠ "") (hid : truthy hub.id = true) :
    ((status < 200 ∨ 300 ≤ status) →
      fetchData (.response status b) = .error ⟨"HTTP status " ++ toString status, none⟩
      ∧ containsStr ("HTTP status " ++ toString status) (toString status) = true)
    ∧ (¬ (status < 200 ∨ 300 ≤ status) →
      ∀ e, fetchData (.response status b) = .error e →
        beginsWith e.message "HTTP status " = false)
    ∧ (backendVersion (fetchData (.response 500 b))
        = .rejected "Failed to fetch backend version! HTTP status 500"
      ∧ containsStr "Failed to fetch backend version! HTTP status 500" "500" = true)
    ∧ (fetchHubs c (fetchData (.response 500 b))
        = .rejected "Failed to fetch hubs! HTTP status 500"
      ∧ containsStr "Failed to fetch hubs! HTTP status 500" "500" = true)
    ∧ (fetchHub c hubId (fetchData (.response 500 b))
        = .rejected "Failed to fetch hub! HTTP status 500"
      ∧ containsStr "Failed to fetch hub! HTTP status 500" "500" = true)
    ∧ (fetchShockers hub (fetchData (.response 500 b))
        = .rejected "Failed to fetch shockers! HTTP status 500"
      ∧ containsStr "Failed to fetch shockers! HTTP status 500" "500" = true) := by
  have h500 : fetchData (.response 500 b) = .error ⟨"HTTP status 500", none⟩ := rfl
  refine ⟨?_, ?_, ?_, ?_, ?_, ?_⟩
  · intro h
    exact ⟨by simp [fetchData, if_pos h], containsStr_pre "HTTP status " _⟩
  · intro h e he
    simp only [fetchData, if_neg h] at he
    cases hj : jsonParse b with
    | some v => rw [hj] at he; cases he
    | none =>
      rw [hj] at he
      cases he
      decide
  · exact ⟨by rw [h500]; rfl, by decide⟩
  · exact ⟨by rw [h500]; rfl, by decide⟩
  · refine ⟨?_, by decide⟩
    rw [h500]
    simp [fetchHub, hne]
  · refine ⟨?_, by decide⟩
    rw [h500]
    simp [fetchShockers, hid]

/-- C8 witness: HTTP 500 produces the status error containing `500` and
every domain read operation rejects accordingly; an in-range HTTP 200
with an unparseable body fails with the parse error, which is not an
HTTP-status error. -/
theorem c8_http_status_witness :
    (fetchData (.response 500 "x") = .error ⟨"HTTP status 500", none⟩
      ∧ containsStr "HTTP status 500" "500" = true)
    ∧ beginsWith "Failed to parse JSON response." "HTTP status " = false
    ∧ backendVersion (fetchData (.response 500 "x"))
      = .rejected "Failed to fetch backend version! HTTP status 500"
    ∧ fetchHubs ⟨"k", "https://api.openshock.app/"⟩ (fetchData (.response 500 "x"))
      = .rejected "Failed to fetch hubs! HTTP status 500"
    ∧ fetchHub ⟨"k", "https://api.openshock.app/"⟩ "h1" (fetchData (.response 500 "x"))
      = .rejected "Failed to fetch hub! HTTP status 500"
    ∧ fetchShockers ⟨⟨"k", "https://api.openshock.app/"⟩, .str "h1", .str "Hub1", .str "t"⟩
        (fetchData (.response 500 "x"))
      = .rejected "Failed to fetch shockers! HTTP status 500" := by
  have h := c8_http_status 500 "x" ⟨"k", "https://api.openshock.app/"⟩ "h1"
    ⟨⟨"k", "https://api.openshock.app/"⟩, .str "h1", .str "Hub1", .str "t"⟩
    (by decide) rfl
  have h2 := c8_http_status 200 "x" ⟨"k", "https://api.openshock.app/"⟩ "h1"
    ⟨⟨"k", "https://api.openshock.app/"⟩, .str "h1", .str "Hub1", .str "t"⟩
    (by decide) rfl
  refine ⟨⟨(h.1 (by omega)).1, (h.1 (by omega)).2⟩, ?_, h.2.2.1.1, h.2.2.2.1.1,
    h.2.2.2.2.1.1, h.2.2.2.2.2.1⟩
  exact h2.2.1 (by omega) ⟨"Failed to parse JSON response.", none⟩ rfl

/-- C9: for the same backing raw hub JSON object, the `DeviceHub` produced
by `fetchHubs` (from a one-element devices list) and the one produced by
`fetchHub` (from the single-hub endpoint) carry identical `id`, `name`
and `createdOn` fields. -/
theorem c9_hub_round_trip (c : Client) (h : JsValue) (hubId : String)
    (hne : hubId ≠ "") (hh : truthy h = true)
    (hid : truthy (getField h "id") = true) :
    ∃ a b : DeviceHub,
      fetchHubs c (.ok (.obj [("data", .arr [h])])) = .resolved [a]
      ∧ fetchHub c hubId (.ok (.obj [("data", h)])) = .resolved b
      ∧ a.id = b.id ∧ a.name = b.name ∧ a.createdOn = b.createdOn := by
  refine ⟨⟨c, getField h "id", getField h "name", getField h "createdOn"⟩,
    ⟨c, getField h "id", getField h "name", getField h "createdOn"⟩, ?_, ?_, rfl, rfl, rfl⟩
  · simp [fetchHubs, getField_single, truthy_objv, truthy_arrv, mapHubs,
      nullishErr_none h "id" hh]
  · simp [fetchHub, hne, getField_single, truthy_objv, hh, hid]

/-- C9 witness: the round trip on a concrete raw hub object. -/
theorem c9_hub_round_trip_witness :
    ∃ a b : DeviceHub,
      fetchHubs ⟨"k", "https://api.openshock.app/"⟩
        (.ok (.obj [("data", .arr [.obj [("id", .str "h1"), ("name", .str "Hub1"),
          ("createdOn", .str "2024-01-01")]])])) = .resolved [a]
      ∧ fetchHub ⟨"k", "https://api.openshock.app/"⟩ "h1"
        (.ok (.obj [("data", .obj [("id", .str "h1"), ("name", .str "Hub1"),
          ("createdOn", .str "2024-01-01")])])) = .resolved b
      ∧ a.id = b.id ∧ a.name = b.name ∧ a.createdOn = b.createdOn :=
  c9_hub_round_trip ⟨"k", "https://api.openshock.app/"⟩
    (.obj [("id", .str "h1"), ("name", .str "Hub1"), ("createdOn", .str "2024-01-01")])
    "h1" (by decide) rfl rfl
